import Mathlib

/-!
Verification of the fastapi-opentelemetry repository against its
natural-language specification.

The repository itself (src/main.py, src/tracer.py, src/run_migration.py)
is bootstrap glue; its spec additionally describes a span-processing
pipeline (Span Buffer, Batcher, Exporter Adapter, Pipeline Controller)
whose code does not exist in the repository.  The bootstrap files are
embedded from the source; the pipeline components are modelled from the
spec's words, as marked in each doc comment.

Spans are identified by natural numbers throughout the pipeline model.
-/

namespace S2P

/-! ## Span Buffer (spec §4.1) -/

/-- Modelled from the spec: the Span Buffer of §4.1, which is not present in
the source.  "fixed-capacity ring buffer holding finished spans awaiting
export"; `items` is ordered oldest-first and `dropped_count` is the
dropped-span counter. -/
structure SpanBuffer where
  capacity : Nat
  items : List Nat
  dropped_count : Nat
deriving Repr, DecidableEq

/-- A fresh, empty buffer of the given capacity. -/
def SpanBuffer.empty (cap : Nat) : SpanBuffer :=
  { capacity := cap, items := [], dropped_count := 0 }

/-- Modelled from the spec: "`push(span)` is non-blocking; if buffer is full,
oldest unexported span is evicted (policy: drop-oldest) and a dropped-span
counter increments." -/
def SpanBuffer.push (b : SpanBuffer) (s : Nat) : SpanBuffer :=
  if b.items.length < b.capacity then
    { b with items := b.items ++ [s] }
  else
    { b with items := b.items.tail ++ [s],
             dropped_count := b.dropped_count + 1 }

/-- Modelled from the spec: "`drainAll()` atomically removes and returns all
buffered spans, resetting the buffer." -/
def SpanBuffer.drainAll (b : SpanBuffer) : List Nat × SpanBuffer :=
  (b.items, { b with items := [] })

/-- Push a whole sequence of spans in order. -/
def SpanBuffer.pushAll (b : SpanBuffer) (ss : List Nat) : SpanBuffer :=
  ss.foldl SpanBuffer.push b

lemma SpanBuffer.push_items_of_room (b : SpanBuffer) (s : Nat)
    (h : b.items.length < b.capacity) :
    (b.push s).items = b.items ++ [s] := by
  simp [SpanBuffer.push, h]

lemma SpanBuffer.push_dropped_of_room (b : SpanBuffer) (s : Nat)
    (h : b.items.length < b.capacity) :
    (b.push s).dropped_count = b.dropped_count := by
  simp [SpanBuffer.push, h]

lemma SpanBuffer.push_capacity (b : SpanBuffer) (s : Nat) :
    (b.push s).capacity = b.capacity := by
  unfold SpanBuffer.push
  split <;> rfl

/-- Pushing a sequence that fits in the remaining room appends it verbatim
and leaves the counters alone. -/
lemma SpanBuffer.pushAll_of_room (ss : List Nat) :
    ∀ b : SpanBuffer, b.items.length + ss.length ≤ b.capacity →
      (b.pushAll ss).items = b.items ++ ss ∧
      (b.pushAll ss).dropped_count = b.dropped_count ∧
      (b.pushAll ss).capacity = b.capacity := by
  induction ss with
  | nil => intro b _; simp [SpanBuffer.pushAll]
  | cons s rest ih =>
    intro b hle
    have hroom : b.items.length < b.capacity := by
      simp only [List.length_cons] at hle
      omega
    have hstep : (b.push s).items = b.items ++ [s] :=
      b.push_items_of_room s hroom
    have hlen : (b.push s).items.length + rest.length ≤ (b.push s).capacity := by
      rw [hstep, b.push_capacity s]
      simp only [List.length_append, List.length_singleton]
      simp only [List.length_cons] at hle
      omega
    have hrest := ih (b.push s) hlen
    refine ⟨?_, ?_, ?_⟩
    · have : (SpanBuffer.pushAll (b.push s) rest).items
          = (b.push s).items ++ rest := hrest.1
      simpa [SpanBuffer.pushAll, hstep] using this
    · have : (SpanBuffer.pushAll (b.push s) rest).dropped_count
          = (b.push s).dropped_count := hrest.2.1
      simpa [SpanBuffer.pushAll, b.push_dropped_of_room s hroom] using this
    · have : (SpanBuffer.pushAll (b.push s) rest).capacity
          = (b.push s).capacity := hrest.2.2
      simpa [SpanBuffer.pushAll, b.push_capacity s] using this

/-! ## Batcher (spec §4.2) -/

/-- Batch-formation configuration (spec §6). -/
structure BatcherConfig where
  max_batch_size : Nat
  max_batch_delay : Nat
deriving Repr, DecidableEq

/-- Accumulation state of the Batcher: the spans gathered so far and the
timestamp of the first span of the current accumulation window (`none`
when no window is open). -/
structure BatcherState where
  acc : List Nat
  windowStart : Option Nat
deriving Repr, DecidableEq

/-- Events seen by the Batcher: a span arriving at time `t`, or the
periodic timer checking the clock at time `t`. -/
inductive BatchEvent where
  | push (t : Nat) (s : Nat)
  | tick (t : Nat)
deriving Repr, DecidableEq

/-- Modelled from the spec: the Batcher of §4.2, which is not present in the
source.  "Triggers flush when either (a) accumulated span count ≥
max_batch_size, or (b) max_batch_delay elapses since first span in the
current accumulation window."  Returns the successor state and the flushed
batch, if any. -/
def Batcher.step (cfg : BatcherConfig) (st : BatcherState) :
    BatchEvent → BatcherState × Option (List Nat)
  | .push t s =>
    let w := st.windowStart.getD t
    let acc := st.acc ++ [s]
    if cfg.max_batch_size ≤ acc.length ∨ cfg.max_batch_delay ≤ t - w then
      ({ acc := [], windowStart := none }, some acc)
    else
      ({ acc := acc, windowStart := some w }, none)
  | .tick t =>
    match st.windowStart with
    | none => (st, none)
    | some w =>
      if cfg.max_batch_delay ≤ t - w then
        ({ acc := [], windowStart := none }, some st.acc)
      else
        (st, none)

/-! ## Export retry loop (spec §4.2, failure path) -/

/-- Retry configuration: maximum number of retries, base backoff delay and
the backoff cap (spec §6 and §4.2). -/
structure RetryConfig where
  max_retries : Nat
  base_delay : Nat
  delay_cap : Nat
deriving Repr, DecidableEq

/-- Modelled from the spec: "exponential backoff (base delay × 2^attempt,
capped)". -/
def backoffDelay (cfg : RetryConfig) (attempt : Nat) : Nat :=
  min (cfg.base_delay * 2 ^ attempt) cfg.delay_cap

/-- Modelled from the spec: the attempts actually made when exporting one
batch.  `oracle k` tells whether the exporter call on attempt `k` succeeds.
The loop stops at the first success, or after `fuel` attempts.  Each listed
attempt is one delivery of the batch to the Exporter Adapter. -/
def exportAttempts (oracle : Nat → Bool) : Nat → Nat → List Nat
  | 0, _ => []
  | fuel + 1, k => if oracle k then [k] else k :: exportAttempts oracle fuel (k + 1)

/-- The retry loop itself: returns the index of the first successful
attempt among at most `fuel` attempts starting at attempt `k`. -/
def exportLoop (oracle : Nat → Bool) : Nat → Nat → Option Nat
  | 0, _ => none
  | fuel + 1, k => if oracle k then some k else exportLoop oracle fuel (k + 1)

/-- Modelled from the spec: "on export failure, retries up to max_retries
..., then drops the batch and increments a failed-export counter."  The
initial attempt plus up to `max_retries` retries; returns the successful
attempt index (or `none` when the batch is dropped) and the updated
failed-export counter. -/
def exportBatch (cfg : RetryConfig) (oracle : Nat → Bool) (failedCount : Nat) :
    Option Nat × Nat :=
  match exportLoop oracle (cfg.max_retries + 1) 0 with
  | some k => (some k, failedCount)
  | none => (none, failedCount + 1)

/-- Number of attempts never exceeds 1 + max_retries. -/
lemma exportAttempts_length_le (oracle : Nat → Bool) :
    ∀ fuel k, (exportAttempts oracle fuel k).length ≤ fuel := by
  intro fuel
  induction fuel with
  | zero => intro k; simp [exportAttempts]
  | succ n ih =>
    intro k
    by_cases h : oracle k = true
    · simp [exportAttempts, h]
    · simp only [Bool.not_eq_true] at h
      simp only [exportAttempts, h, Bool.false_eq_true, if_false,
        List.length_cons]
      exact Nat.succ_le_succ (ih (k + 1))

/-! ## Pipeline Controller span life cycle (spec §3, §4.4) -/

/-- State of one pipeline instance, tracking where every span currently
lives: still buffered, delivered to the exporter sink in some batch, or
dropped (by buffer overflow or after export gives up). -/
structure PipelineState where
  buffer : List Nat
  exported : List (List Nat)
  dropped : List Nat
deriving Repr, DecidableEq

/-- Operations driving one pipeline instance: `record` a finished span, or
a Batcher `flush` whose export either succeeds or exhausts its retries. -/
inductive PipelineOp where
  | record (s : Nat)
  | flush (ok : Bool)
deriving Repr, DecidableEq

/-- Modelled from the spec: the Pipeline Controller of §4.4, which is not
present in the source.  `record` appends to the buffer (drop-oldest on
overflow, §4.1); a flush drains the whole buffer into one batch, which is
either delivered to the Exporter Adapter or, after retries are exhausted,
dropped and counted (§4.2). -/
def Pipeline.step (cap : Nat) (st : PipelineState) : PipelineOp → PipelineState
  | .record s =>
    if st.buffer.length < cap then
      { st with buffer := st.buffer ++ [s] }
    else
      { st with buffer := st.buffer.tail ++ [s],
                dropped := st.dropped ++ st.buffer.take 1 }
  | .flush ok =>
    if ok then
      { st with buffer := [], exported := st.exported ++ [st.buffer] }
    else
      { st with buffer := [], dropped := st.dropped ++ st.buffer }

/-- Run a pipeline instance from the fresh state through a list of
operations. -/
def Pipeline.run (cap : Nat) (ops : List PipelineOp) : PipelineState :=
  ops.foldl (Pipeline.step cap) { buffer := [], exported := [], dropped := [] }

/-- The spans the producers handed to `record`, in order. -/
def recordedSpans (ops : List PipelineOp) : List Nat :=
  ops.filterMap (fun op =>
    match op with
    | .record s => some s
    | .flush _ => none)

/-- Every place a span can live in a pipeline state, concatenated. -/
def PipelineState.allSpans (st : PipelineState) : List Nat :=
  st.buffer ++ st.exported.flatten ++ st.dropped

/-- One step neither duplicates nor loses a span: the multiset of spans
across buffer, exported batches and drop records grows exactly by what the
operation records. -/
lemma Pipeline.count_step (cap : Nat) (st : PipelineState) (op : PipelineOp)
    (x : Nat) :
    (Pipeline.step cap st op).allSpans.count x
      = st.allSpans.count x + (recordedSpans [op]).count x := by
  cases op with
  | record s =>
    by_cases h : st.buffer.length < cap
    · by_cases hx : x = s
      · subst hx
        simp [Pipeline.step, h, PipelineState.allSpans, recordedSpans,
          List.count_append, List.count_cons]
        try omega
      · simp [Pipeline.step, h, PipelineState.allSpans, recordedSpans,
          List.count_append, List.count_cons, hx]
        try omega
    · have hcount : (st.buffer.take 1).count x + st.buffer.tail.count x
          = st.buffer.count x := by
        conv_rhs => rw [← List.take_append_drop 1 st.buffer]
        simp [List.count_append, List.drop_one]
      by_cases hx : x = s
      · subst hx
        simp [Pipeline.step, h, PipelineState.allSpans, recordedSpans,
          List.count_append, List.count_cons]
        omega
      · simp [Pipeline.step, h, PipelineState.allSpans, recordedSpans,
          List.count_append, List.count_cons, hx]
        try omega
  | flush ok =>
    cases ok with
    | true =>
      simp [Pipeline.step, PipelineState.allSpans, recordedSpans,
        List.count_append]
      omega
    | false =>
      simp [Pipeline.step, PipelineState.allSpans, recordedSpans,
        List.count_append]
      omega

/-- Over a whole run, every span occurs across the three places exactly as
often as it was recorded. -/
lemma Pipeline.count_run (cap : Nat) (x : Nat) :
    ∀ (ops : List PipelineOp) (st : PipelineState),
      (ops.foldl (Pipeline.step cap) st).allSpans.count x
        = st.allSpans.count x + (recordedSpans ops).count x := by
  intro ops
  induction ops with
  | nil => intro st; simp [recordedSpans]
  | cons op rest ih =>
    intro st
    have hstep := Pipeline.count_step cap st op x
    have hrec : (recordedSpans (op :: rest)).count x
        = (recordedSpans [op]).count x + (recordedSpans rest).count x := by
      cases op with
      | record s => simp [recordedSpans, List.count_cons]; omega
      | flush ok => simp [recordedSpans]
    calc ((op :: rest).foldl (Pipeline.step cap) st).allSpans.count x
        = (rest.foldl (Pipeline.step cap) (Pipeline.step cap st op)).allSpans.count x := by
          simp
      _ = (Pipeline.step cap st op).allSpans.count x
            + (recordedSpans rest).count x := ih _
      _ = st.allSpans.count x + (recordedSpans (op :: rest)).count x := by
          rw [hstep, hrec]; omega

/-! ## Configuration validation (spec §6, §7) -/

/-- The pipeline configuration record of §6. -/
structure PipelineConfig where
  service_name : String
  exporter_endpoint : String
  max_batch_size : Int
  max_batch_delay : Nat
  max_retries : Nat
  buffer_capacity : Int
deriving Repr, DecidableEq

/-- Modelled from the spec: "exporter_endpoint: URL".  An endpoint is a
well-formed URL when it has an http or https scheme followed by a
non-empty remainder. -/
def isValidEndpoint (url : String) : Bool :=
  (url.startsWith "http://" && 7 < url.length)
    || (url.startsWith "https://" && 8 < url.length)

/-- A constructed pipeline instance: its validated configuration and its
fresh span buffer. -/
structure PipelineInstance where
  config : PipelineConfig
  buffer : SpanBuffer
deriving Repr, DecidableEq

/-- Modelled from the spec: "Misconfiguration (invalid endpoint,
non-positive sizes): fails fast at construction."  Construction returns an
error before any buffer exists to record into. -/
def mkPipeline (cfg : PipelineConfig) : Except String PipelineInstance :=
  if isValidEndpoint cfg.exporter_endpoint = false then
    .error "invalid exporter_endpoint URL"
  else if cfg.max_batch_size ≤ 0 then
    .error "non-positive max_batch_size"
  else if cfg.buffer_capacity ≤ 0 then
    .error "non-positive buffer_capacity"
  else
    .ok { config := cfg, buffer := SpanBuffer.empty cfg.buffer_capacity.toNat }

/-- The first successful attempt is found by the retry loop whenever it
lies within the attempt budget and everything before it fails. -/
lemma exportLoop_first_success (oracle : Nat → Bool) :
    ∀ fuel k n, k ≤ n → n < k + fuel →
      (∀ i, k ≤ i → i < n → oracle i = false) → oracle n = true →
      exportLoop oracle fuel k = some n := by
  intro fuel
  induction fuel with
  | zero => intro k n hkn hlt _ _; omega
  | succ m ih =>
    intro k n hkn hlt hfail hsucc
    by_cases hk : k = n
    · subst hk
      simp [exportLoop, hsucc]
    · have hklt : k < n := by omega
      have hkf : oracle k = false := hfail k (le_refl k) hklt
      simp only [exportLoop, hkf, Bool.false_eq_true, if_false]
      exact ih (k + 1) n (by omega) (by omega)
        (fun i hi hin => hfail i (by omega) hin) hsucc

/-- Under the same conditions the batch is delivered with success exactly
once: the loop makes failing deliveries up to the first success and then
stops. -/
lemma exportAttempts_one_success (oracle : Nat → Bool) :
    ∀ fuel k n, k ≤ n → n < k + fuel →
      (∀ i, k ≤ i → i < n → oracle i = false) → oracle n = true →
      (exportAttempts oracle fuel k).countP oracle = 1 := by
  intro fuel
  induction fuel with
  | zero => intro k n hkn hlt _ _; omega
  | succ m ih =>
    intro k n hkn hlt hfail hsucc
    by_cases hk : k = n
    · subst hk
      simp [exportAttempts, hsucc, List.countP_cons]
    · have hklt : k < n := by omega
      have hkf : oracle k = false := hfail k (le_refl k) hklt
      simp only [exportAttempts, hkf, Bool.false_eq_true, if_false,
        List.countP_cons, hkf]
      have := ih (k + 1) n (by omega) (by omega)
        (fun i hi hin => hfail i (by omega) hin) hsucc
      simp [this]

/-- When every attempt fails the loop runs out of fuel with no success. -/
lemma exportLoop_all_fail :
    ∀ fuel k, exportLoop (fun _ => false) fuel k = none := by
  intro fuel
  induction fuel with
  | zero => intro k; rfl
  | succ m ih => intro k; simp [exportLoop, ih]

/-! ## Embedding of src/tracer.py -/

/-- `SERVICE_NAME` constant of src/tracer.py. -/
def SERVICE_NAME : String := "fastapi"

/-- `OTLP_COLLECTOR_ENDPOINT` constant of src/tracer.py. -/
def OTLP_COLLECTOR_ENDPOINT : String := "http://localhost:4317"

/-- An exporter sink as wrapped by a `BatchSpanProcessor` in
src/tracer.py: the OTLP network exporter with its endpoint, or the console
exporter. -/
inductive ExporterSink where
  | otlp (endpoint : String)
  | console
deriving Repr, DecidableEq

/-- A `TracerProvider` as built by src/tracer.py: a fresh object identity,
its resource attributes, and the span processors attached to it (each one
a `BatchSpanProcessor` wrapping one exporter sink, in attach order). -/
structure TracerProvider where
  pid : Nat
  resource : List (String × String)
  processors : List ExporterSink
deriving Repr, DecidableEq

/-- The interpreter state src/tracer.py manipulates: the object-identity
counter for freshly constructed providers, every provider constructed so
far, and the provider installed by `trace.set_tracer_provider`. -/
structure TraceWorld where
  nextId : Nat
  providers : List TracerProvider
  globalProvider : Option Nat
deriving Repr, DecidableEq

/-- Interpreter state before any module of the application is loaded. -/
def TraceWorld.init : TraceWorld :=
  { nextId := 0, providers := [], globalProvider := none }

/-- Embedding of `initialize_tracer` in src/tracer.py: create a resource
carrying the service name, construct a fresh `TracerProvider` over it,
attach a `BatchSpanProcessor` wrapping an `OTLPSpanExporter` at
`OTLP_COLLECTOR_ENDPOINT`, attach a second `BatchSpanProcessor` wrapping a
`ConsoleSpanExporter`, and install the provider globally via
`trace.set_tracer_provider`. -/
def initialize_tracer (w : TraceWorld) : TraceWorld :=
  let resource := [("service.name", SERVICE_NAME)]
  let provider : TracerProvider :=
    { pid := w.nextId
      resource := resource
      processors := [ExporterSink.otlp OTLP_COLLECTOR_ENDPOINT,
                     ExporterSink.console] }
  { nextId := w.nextId + 1
    providers := w.providers ++ [provider]
    globalProvider := some provider.pid }

/-- Embedding of `import tracer`: the module body of src/tracer.py calls
`initialize_tracer()` once at load time ("Initialize the tracer once when
the module is loaded"). -/
def importTracerModule (w : TraceWorld) : TraceWorld :=
  initialize_tracer w

/-- Embedding of the startup of src/main.py: `from tracer import
initialize_tracer` first executes the tracer module body, then main.py
calls `initialize_tracer()` again itself. -/
def mainStartup (w : TraceWorld) : TraceWorld :=
  initialize_tracer (importTracerModule w)

/-! ## Embedding of src/main.py -/

/-- HTTP methods relevant to the route table of src/main.py. -/
inductive HttpMethod where
  | GET
  | POST
deriving Repr, DecidableEq

/-- Embedding of `read_root` in src/main.py: for every request it returns
the mapping from "Hello" to "World". -/
def read_root (_request : Unit) : List (String × String) :=
  [("Hello", "World")]

/-- Embedding of the route table built in src/main.py: the application
registers the single route `@app.get("/")` bound to `read_root`, stored
here as (method, path, handler) triples. -/
def appRoutes : List (HttpMethod × String × (Unit → List (String × String))) :=
  [(HttpMethod.GET, "/", read_root)]

/-! ## Embedding of src/run_migration.py -/

/-- Embedding of `run_migration` in src/run_migration.py: it builds the
fixed `alembicArgs` list and hands it to `alembic.config.main`; the value
is the argv the migration runner receives.  The source reads no parameter,
no configuration and no environment; the argument here models the process
environment and is ignored exactly as the source ignores it. -/
def run_migration (_env : List (String × String)) : List String :=
  let alembicArgs := ["--raiseerr", "upgrade", "head"]
  alembicArgs

end S2P

/-! ## Claim theorems -/

/-- C3: for every sequence of record/push calls whose length does not exceed
`buffer_capacity` and with no intervening drain, `drainAll` returns exactly
the pushed spans in insertion order and leaves the buffer empty. -/
theorem C3_drainAll_returns_pushed_in_order (cap : Nat) (ss : List Nat)
    (h : ss.length ≤ cap) :
    ((S2P.SpanBuffer.empty cap).pushAll ss).drainAll
      = (ss, { capacity := cap, items := [], dropped_count := 0 }) := by
  have hroom : (S2P.SpanBuffer.empty cap).items.length + ss.length
      ≤ (S2P.SpanBuffer.empty cap).capacity := by
    simpa [S2P.SpanBuffer.empty] using h
  obtain ⟨hi, hd, hc⟩ := S2P.SpanBuffer.pushAll_of_room ss _ hroom
  simp only [S2P.SpanBuffer.empty] at hi hd hc
  simp only [S2P.SpanBuffer.drainAll]
  ext : 1
  · simpa using hi
  · cases hb : ((S2P.SpanBuffer.empty cap).pushAll ss) with
    | mk c i d =>
      simp only [S2P.SpanBuffer.empty] at hb
      rw [hb] at hi hd hc
      simp_all

/-- C3 witness at a concrete input. -/
theorem C3_drainAll_returns_pushed_in_order_witness :
    ([10, 20, 30] : List Nat).length ≤ 5 ∧
    ((S2P.SpanBuffer.empty 5).pushAll [10, 20, 30]).drainAll
      = ([10, 20, 30], { capacity := 5, items := [], dropped_count := 0 }) :=
  ⟨by decide, C3_drainAll_returns_pushed_in_order 5 [10, 20, 30] (by decide)⟩

/-- C4: pushing onto a full buffer evicts the oldest buffered span and
increments the dropped-span counter by one; concretely, with
`buffer_capacity = 3`, pushing spans A, B, C, D and draining returns
[B, C, D] with `dropped_count = 1` (A = 1, B = 2, C = 3, D = 4). -/
theorem C4_drop_oldest_on_full (b : S2P.SpanBuffer) (s : Nat)
    (h : b.items.length = b.capacity) :
    (b.push s).items = b.items.tail ++ [s] ∧
    (b.push s).dropped_count = b.dropped_count + 1 ∧
    ((S2P.SpanBuffer.empty 3).pushAll [1, 2, 3, 4]).drainAll
      = ([2, 3, 4], { capacity := 3, items := [], dropped_count := 1 }) := by
  have hfull : ¬ b.items.length < b.capacity := by omega
  refine ⟨?_, ?_, ?_⟩
  · simp [S2P.SpanBuffer.push, hfull]
  · simp [S2P.SpanBuffer.push, hfull]
  · decide

/-- C4 witness at a concrete full buffer. -/
theorem C4_drop_oldest_on_full_witness :
    ({ capacity := 2, items := [7, 8], dropped_count := 0 } :
        S2P.SpanBuffer).items.length
      = ({ capacity := 2, items := [7, 8], dropped_count := 0 } :
        S2P.SpanBuffer).capacity ∧
    (({ capacity := 2, items := [7, 8], dropped_count := 0 } :
        S2P.SpanBuffer).push 9).items = [8, 9] :=
  ⟨by decide,
   by
    have h := C4_drop_oldest_on_full
      { capacity := 2, items := [7, 8], dropped_count := 0 } 9 (by decide)
    simpa using h.1⟩

/-- C1: with pairwise-distinct recorded spans, every recorded span occurs
exactly once across the places buffered / exported / dropped — so it is in
exactly one of the states "buffered" and "exported-or-dropped", never
both, and is never silently lost — and no span is delivered to the
exporter sink more than once (in particular no span appears in two
exported batches). -/
theorem C1_span_states_exclusive (cap : Nat) (ops : List S2P.PipelineOp)
    (h : (S2P.recordedSpans ops).Nodup) :
    (∀ s : Nat, s ∈ S2P.recordedSpans ops →
       (S2P.Pipeline.run cap ops).buffer.count s
         + (S2P.Pipeline.run cap ops).exported.flatten.count s
         + (S2P.Pipeline.run cap ops).dropped.count s = 1) ∧
    (∀ s : Nat,
       (S2P.Pipeline.run cap ops).buffer.count s
         + (S2P.Pipeline.run cap ops).exported.flatten.count s
         + (S2P.Pipeline.run cap ops).dropped.count s ≤ 1) ∧
    (∀ s : Nat, s ∈ (S2P.Pipeline.run cap ops).buffer →
       s ∉ (S2P.Pipeline.run cap ops).exported.flatten ∧
       s ∉ (S2P.Pipeline.run cap ops).dropped) ∧
    (∀ s : Nat, (S2P.Pipeline.run cap ops).exported.flatten.count s ≤ 1) := by
  have hall : ∀ s : Nat,
      (S2P.Pipeline.run cap ops).allSpans.count s
        = (S2P.recordedSpans ops).count s := by
    intro s
    have hrun := S2P.Pipeline.count_run cap s ops
      { buffer := [], exported := [], dropped := [] }
    simpa [S2P.Pipeline.run, S2P.PipelineState.allSpans] using hrun
  have hsum : ∀ s : Nat,
      (S2P.Pipeline.run cap ops).buffer.count s
        + (S2P.Pipeline.run cap ops).exported.flatten.count s
        + (S2P.Pipeline.run cap ops).dropped.count s ≤ 1 := by
    intro s
    have h1 := hall s
    have h2 := List.nodup_iff_count_le_one.mp h s
    simp only [S2P.PipelineState.allSpans, List.count_append] at h1
    omega
  have hone : ∀ s : Nat, s ∈ S2P.recordedSpans ops →
      (S2P.Pipeline.run cap ops).buffer.count s
        + (S2P.Pipeline.run cap ops).exported.flatten.count s
        + (S2P.Pipeline.run cap ops).dropped.count s = 1 := by
    intro s hs
    have h1 := hall s
    have h2 := List.nodup_iff_count_le_one.mp h s
    have h3 : 0 < (S2P.recordedSpans ops).count s :=
      List.count_pos_iff.mpr hs
    simp only [S2P.PipelineState.allSpans, List.count_append] at h1
    omega
  refine ⟨hone, hsum, ?_, fun s => by have := hsum s; omega⟩
  intro s hmem
  have hpos : 0 < (S2P.Pipeline.run cap ops).buffer.count s :=
    List.count_pos_iff.mpr hmem
  have hs := hsum s
  constructor
  · intro hmem2
    have := List.count_pos_iff.mpr hmem2
    omega
  · intro hmem2
    have := List.count_pos_iff.mpr hmem2
    omega

/-- C1 witness: a concrete run with an overflow, a successful flush and a
residual buffered span; span 2 occurs exactly once across the three
places. -/
theorem C1_span_states_exclusive_witness :
    (S2P.recordedSpans
      [S2P.PipelineOp.record 1, S2P.PipelineOp.record 2,
       S2P.PipelineOp.record 3, S2P.PipelineOp.flush true,
       S2P.PipelineOp.record 4]).Nodup ∧
    2 ∈ S2P.recordedSpans
      [S2P.PipelineOp.record 1, S2P.PipelineOp.record 2,
       S2P.PipelineOp.record 3, S2P.PipelineOp.flush true,
       S2P.PipelineOp.record 4] ∧
    ((S2P.Pipeline.run 2
        [S2P.PipelineOp.record 1, S2P.PipelineOp.record 2,
         S2P.PipelineOp.record 3, S2P.PipelineOp.flush true,
         S2P.PipelineOp.record 4]).buffer.count 2
      + (S2P.Pipeline.run 2
          [S2P.PipelineOp.record 1, S2P.PipelineOp.record 2,
           S2P.PipelineOp.record 3, S2P.PipelineOp.flush true,
           S2P.PipelineOp.record 4]).exported.flatten.count 2
      + (S2P.Pipeline.run 2
          [S2P.PipelineOp.record 1, S2P.PipelineOp.record 2,
           S2P.PipelineOp.record 3, S2P.PipelineOp.flush true,
           S2P.PipelineOp.record 4]).dropped.count 2 = 1) :=
  ⟨by decide, by decide,
   (C1_span_states_exclusive 2
      [S2P.PipelineOp.record 1, S2P.PipelineOp.record 2,
       S2P.PipelineOp.record 3, S2P.PipelineOp.flush true,
       S2P.PipelineOp.record 4] (by decide)).1 2 (by decide)⟩

/-- C2 counterexample: on the fresh interpreter state, `initialize_tracer`
leaves a provider carrying more than one exporter sink, so it is false
that the tracer setup attaches at most one exporter sink per provider. -/
theorem C2_single_sink_counterexample :
    ((S2P.initialize_tracer S2P.TraceWorld.init).providers.all
      (fun p => decide (p.processors.length ≤ 1))) = false := by
  rfl

/-- C2 amended: in every interpreter state, the provider constructed by
`initialize_tracer` gets exactly two exporter sinks attached, in order a
`BatchSpanProcessor` wrapping the OTLP exporter at the collector endpoint
and a second one wrapping the console exporter. -/
theorem C2_tracer_attaches_two_sinks (w : S2P.TraceWorld) :
    ((S2P.initialize_tracer w).providers.getLast?).map
        (fun p => p.processors)
      = some [S2P.ExporterSink.otlp S2P.OTLP_COLLECTOR_ENDPOINT,
              S2P.ExporterSink.console] := by
  simp [S2P.initialize_tracer]

/-- C5: the Batcher flushes exactly when the accumulated span count reaches
max_batch_size or when max_batch_delay has elapsed since the first span of
the current accumulation window; while neither condition holds, no flush
occurs. -/
theorem C5_batcher_flushes_iff_trigger (cfg : S2P.BatcherConfig)
    (st : S2P.BatcherState) (e : S2P.BatchEvent) :
    (S2P.Batcher.step cfg st e).2.isSome = true ↔
      (match e with
       | .push t _ =>
           cfg.max_batch_size ≤ st.acc.length + 1 ∨
           cfg.max_batch_delay ≤ t - st.windowStart.getD t
       | .tick t =>
           ∃ w, st.windowStart = some w ∧ cfg.max_batch_delay ≤ t - w) := by
  cases e with
  | push t s =>
    by_cases hc : cfg.max_batch_size ≤ (st.acc ++ [s]).length ∨
        cfg.max_batch_delay ≤ t - st.windowStart.getD t
    · simp only [S2P.Batcher.step, hc, if_true, Option.isSome_some, true_iff]
      simpa using hc
    · simp only [S2P.Batcher.step, hc, if_false, Option.isSome_none,
        Bool.false_eq_true, false_iff]
      intro hcontra
      exact hc (by simpa using hcontra)
  | tick t =>
    cases hw : st.windowStart with
    | none => simp [S2P.Batcher.step, hw]
    | some w =>
      by_cases hd : cfg.max_batch_delay ≤ t - w
      · simp [S2P.Batcher.step, hw, hd]
      · simp [S2P.Batcher.step, hw, hd]

/-- C6: on export failure the batch is retried up to max_retries times with
exponential backoff (base delay × 2^attempt, capped) and then dropped with
the failed-export counter incremented; when the first success comes on
attempt n within the budget — in particular three failures then success
with max_retries = 3 — the batch is exported exactly once, on that
attempt. -/
theorem C6_export_retry (cfg : S2P.RetryConfig) (oracle : Nat → Bool)
    (fc n : Nat)
    (hfail : ∀ i, i < n → oracle i = false)
    (hsucc : oracle n = true)
    (hn : n ≤ cfg.max_retries) :
    S2P.exportBatch cfg oracle fc = (some n, fc) ∧
    (S2P.exportAttempts oracle (cfg.max_retries + 1) 0).countP oracle = 1 ∧
    (∀ g : Nat → Bool,
       (S2P.exportAttempts g (cfg.max_retries + 1) 0).length
         ≤ cfg.max_retries + 1) ∧
    (∀ fcAll : Nat,
       S2P.exportBatch cfg (fun _ => false) fcAll = (none, fcAll + 1)) ∧
    (∀ k : Nat,
       S2P.backoffDelay cfg k = min (cfg.base_delay * 2 ^ k) cfg.delay_cap) := by
  have hloop : S2P.exportLoop oracle (cfg.max_retries + 1) 0 = some n :=
    S2P.exportLoop_first_success oracle (cfg.max_retries + 1) 0 n
      (Nat.zero_le n) (by omega) (fun i _ hin => hfail i hin) hsucc
  refine ⟨?_, ?_, ?_, ?_, fun k => rfl⟩
  · simp [S2P.exportBatch, hloop]
  · exact S2P.exportAttempts_one_success oracle (cfg.max_retries + 1) 0 n
      (Nat.zero_le n) (by omega) (fun i _ hin => hfail i hin) hsucc
  · intro g
    exact S2P.exportAttempts_length_le g (cfg.max_retries + 1) 0
  · intro fcAll
    simp [S2P.exportBatch, S2P.exportLoop_all_fail]

/-- C6 witness: retry budget 3, failures on attempts 0, 1, 2 and success on
attempt 3. -/
theorem C6_export_retry_witness :
    (∀ i, i < 3 → (fun k => decide (3 ≤ k)) i = false) ∧
    ((fun k => decide (3 ≤ k)) 3 = true) ∧
    3 ≤ (⟨3, 1, 1000⟩ : S2P.RetryConfig).max_retries ∧
    S2P.exportBatch ⟨3, 1, 1000⟩ (fun k => decide (3 ≤ k)) 0 = (some 3, 0) :=
  ⟨fun i hi => by simp only [decide_eq_false_iff_not]; omega,
   by decide, by decide,
   (C6_export_retry ⟨3, 1, 1000⟩ (fun k => decide (3 ≤ k)) 0 3
      (fun i hi => by simp only [decide_eq_false_iff_not]; omega)
      (by decide) (by decide)).1⟩

/-- C7: construction of the pipeline fails fast — returns an error before
any buffer exists to record a span into — exactly when the configuration
is invalid: a malformed exporter_endpoint URL, or a non-positive
max_batch_size or buffer_capacity. -/
theorem C7_construction_fails_fast (cfg : S2P.PipelineConfig) :
    (S2P.mkPipeline cfg).isOk = false ↔
      (S2P.isValidEndpoint cfg.exporter_endpoint = false ∨
       cfg.max_batch_size ≤ 0 ∨ cfg.buffer_capacity ≤ 0) := by
  by_cases h1 : S2P.isValidEndpoint cfg.exporter_endpoint = false
  · simp [S2P.mkPipeline, h1, Except.isOk, Except.toBool]
  · by_cases h2 : cfg.max_batch_size ≤ 0
    · simp [S2P.mkPipeline, h1, h2, Except.isOk, Except.toBool]
    · by_cases h3 : cfg.buffer_capacity ≤ 0
      · simp [S2P.mkPipeline, h1, h2, h3, Except.isOk, Except.toBool]
      · simp [S2P.mkPipeline, h1, h2, h3, Except.isOk, Except.toBool]

/-- C8: the application wires exactly one HTTP endpoint: the single
registered route is GET "/" and its handler returns the mapping from
"Hello" to "World" for every request. -/
theorem C8_single_route_hello_world :
    S2P.appRoutes.length = 1 ∧
    S2P.appRoutes.map (fun r => (r.1, r.2.1))
      = [(S2P.HttpMethod.GET, "/")] ∧
    (∀ u : Unit, S2P.read_root u = [("Hello", "World")]) :=
  ⟨rfl, rfl, fun _ => rfl⟩

/-- C9: `initialize_tracer` is not idempotent and runs twice during
startup (once when the tracer module is imported, once explicitly from
main.py); each run constructs a fresh provider carrying two newly
registered BatchSpanProcessors, so startup yields two distinct providers
with four processors in total. -/
theorem C9_startup_runs_twice (w : S2P.TraceWorld) :
    S2P.initialize_tracer (S2P.initialize_tracer w) ≠ S2P.initialize_tracer w ∧
    S2P.mainStartup w = S2P.initialize_tracer (S2P.initialize_tracer w) ∧
    (S2P.mainStartup S2P.TraceWorld.init).providers.length = 2 ∧
    ((S2P.mainStartup S2P.TraceWorld.init).providers.map
        (fun p => p.pid)).Nodup ∧
    (S2P.mainStartup S2P.TraceWorld.init).providers.map
        (fun p => p.processors.length) = [2, 2] ∧
    ((S2P.mainStartup S2P.TraceWorld.init).providers.map
        (fun p => p.processors.length)).sum = 4 := by
  refine ⟨?_, rfl, rfl, ?_, rfl, rfl⟩
  · intro hcontra
    have hid := congrArg S2P.TraceWorld.nextId hcontra
    simp only [S2P.initialize_tracer] at hid
    omega
  · simp [S2P.mainStartup, S2P.importTracerModule, S2P.initialize_tracer,
      S2P.TraceWorld.init]

/-- C10: for every invocation, `run_migration` passes exactly the fixed
argument list ["--raiseerr", "upgrade", "head"] to the migration runner,
whatever the environment holds: it always migrates to head with
raise-on-error enabled. -/
theorem C10_migration_args_fixed (env : List (String × String)) :
    S2P.run_migration env = ["--raiseerr", "upgrade", "head"] := rfl
